import Mathlib

/-!
Verification of the VoiceOfFaith REST backend (Node/Express + Firestore).

Shallow embedding: Firestore collections are association lists from
document id to document; each service method from the source is
translated into a pure state-passing function.  `new Date()` timestamps
are passed explicitly as `Nat` parameters, randomly generated values
(uuid tokens, document ids) are likewise explicit parameters, and the
external adapters (identity provider, mail relay, push gateway) are part
of the explicit state (lists of created identities / sent emails /
pushed notifications).
-/

set_option maxRecDepth 4000

/-- A Firestore-style collection: association list id ↦ document. -/
abbrev Collection (α : Type) : Type := List (String × α)

/-- `doc(id).get()` — first binding for the id, if any. -/
def lookupDoc {α : Type} (col : Collection α) (id : String) : Option α :=
  (List.find? (fun kv => kv.1 == id) col).map (·.2)

/-- `doc(id).update(...)` — rewrite the document in place. -/
def updateDoc {α : Type} (col : Collection α) (id : String) (f : α → α) :
    Collection α :=
  List.map (fun kv => if kv.1 == id then (kv.1, f kv.2) else kv) col

/-- `doc(id).delete()` — drop the binding. -/
def deleteDoc {α : Type} (col : Collection α) (id : String) : Collection α :=
  List.filter (fun kv => kv.1 != id) col

/-- The `req.user` object attached by the auth middleware. -/
structure ActingUser where
  uid : String
  role : String
  displayName : String
deriving Repr, DecidableEq

/-- Typed operational errors from src/utils/errors.js (statusCode, code). -/
structure AppErr where
  statusCode : Nat
  code : String
  message : String
deriving Repr, DecidableEq

/-- `new NotFoundError(resource)` — 404, `resource + " not found"`. -/
def NotFoundError (resource : String) : AppErr :=
  ⟨404, "NOT_FOUND", resource ++ " not found"⟩

/-- `new AuthorizationError(message)` — 403. -/
def AuthorizationError (message : String) : AppErr :=
  ⟨403, "AUTHORIZATION_ERROR", message⟩

/-- `new ConflictError(message)` — 409. -/
def ConflictError (message : String) : AppErr :=
  ⟨409, "CONFLICT_ERROR", message⟩

/-- `new DatabaseError(message)` — 500. -/
def DatabaseError (message : String) : AppErr :=
  ⟨500, "DATABASE_ERROR", message⟩

/-- Result shape of the legacy services that return
`{success:false, status, error}` instead of throwing. -/
inductive SvcResult where
  | ok (message : String)
  | err (status : Nat) (error : String)
deriving Repr, DecidableEq

/-- Audio document as created by `AudioService.createAudio`
(src/services/audio.js). -/
structure AudioDoc where
  title : String
  description : String
  audioUrl : String
  thumbnailUrl : Option String
  duration : Nat
  uploadedBy : String
  uploadedByName : String
  category : String
  createdAt : Nat
  downloads : Nat
  plays : Nat
  updatedAt : Option Nat := none
deriving Repr, DecidableEq

/-- Update payload for audios; `none` models an absent/falsy JS field
(the code guards each assignment with `if (data.title)` etc.). -/
structure AudioUpdate where
  title : Option String := none
  description : Option String := none
deriving Repr, DecidableEq

namespace AudioService

/-- `AudioService.updateAudio(id, data, user)` (src/services/audio.js):
404 if missing, 403 'Forbidden' unless `uploadedBy == user.uid` or
`user.role == 'admin'`, else writes title/description/updatedAt. -/
def updateAudio (col : Collection AudioDoc) (id : String) (data : AudioUpdate)
    (user : ActingUser) (now : Nat) : Collection AudioDoc × SvcResult :=
  match lookupDoc col id with
  | none => (col, .err 404 "Audio not found")
  | some doc =>
    if doc.uploadedBy ≠ user.uid ∧ user.role ≠ "admin" then
      (col, .err 403 "Forbidden")
    else
      (updateDoc col id (fun d =>
        { d with
          title := data.title.getD d.title
          description := data.description.getD d.description
          updatedAt := some now }),
       .ok "Audio updated successfully")

/-- `AudioService.deleteAudio(id, user)` (src/services/audio.js). -/
def deleteAudio (col : Collection AudioDoc) (id : String)
    (user : ActingUser) : Collection AudioDoc × SvcResult :=
  match lookupDoc col id with
  | none => (col, .err 404 "Audio not found")
  | some doc =>
    if doc.uploadedBy ≠ user.uid ∧ user.role ≠ "admin" then
      (col, .err 403 "Forbidden")
    else
      (deleteDoc col id, .ok "Audio deleted successfully")

/-- `AudioService.incrementPlays(id)` (src/services/audio.js): a single
Firestore `update` carrying `FieldValue.increment(1)` — one atomic
read-modify-write at the store; `update` on a missing doc rejects. -/
def incrementPlays (col : Collection AudioDoc) (id : String) :
    Collection AudioDoc × SvcResult :=
  match lookupDoc col id with
  | none => (col, .err 500 "update on missing document")
  | some _ =>
    (updateDoc col id (fun d => { d with plays := d.plays + 1 }),
     .ok "Plays incremented")

/-- `AudioService.incrementDownloads(id)` (src/services/audio.js). -/
def incrementDownloads (col : Collection AudioDoc) (id : String) :
    Collection AudioDoc × SvcResult :=
  match lookupDoc col id with
  | none => (col, .err 500 "update on missing document")
  | some _ =>
    (updateDoc col id (fun d => { d with downloads := d.downloads + 1 }),
     .ok "Downloads incremented")

end AudioService

/-- Sermon document as created by `SermonService.createSermon`. -/
structure SermonDoc where
  title : String
  date : Nat
  imageUrl : String
  pdfUrl : String
  uploadedBy : String
  uploadedByName : String
  createdAt : Nat
  downloads : Nat
  updatedAt : Option Nat := none
deriving Repr, DecidableEq

/-- Update payload for sermons (`if (data.title)`, `if (data.date)`). -/
structure SermonUpdate where
  title : Option String := none
  date : Option Nat := none
deriving Repr, DecidableEq

namespace SermonService

/-- `SermonService.updateSermon(id, data, user)` (sermon service):
404 if missing, 403 'Forbidden' unless creator or admin. -/
def updateSermon (col : Collection SermonDoc) (id : String)
    (data : SermonUpdate) (user : ActingUser) (now : Nat) :
    Collection SermonDoc × SvcResult :=
  match lookupDoc col id with
  | none => (col, .err 404 "Sermon not found")
  | some doc =>
    if doc.uploadedBy ≠ user.uid ∧ user.role ≠ "admin" then
      (col, .err 403 "Forbidden")
    else
      (updateDoc col id (fun d =>
        { d with
          title := data.title.getD d.title
          date := data.date.getD d.date
          updatedAt := some now }),
       .ok "Sermon updated successfully")

/-- `SermonService.deleteSermon(id, user)`: 404 if missing, 403 unless
creator or admin, else removes the stored files and the document. -/
def deleteSermon (col : Collection SermonDoc) (id : String)
    (user : ActingUser) : Collection SermonDoc × SvcResult :=
  match lookupDoc col id with
  | none => (col, .err 404 "Sermon not found")
  | some doc =>
    if doc.uploadedBy ≠ user.uid ∧ user.role ≠ "admin" then
      (col, .err 403 "Forbidden")
    else
      (deleteDoc col id, .ok "Sermon deleted successfully")

end SermonService

/-- Post document as created by `PostService.createPost`
(src/services/post.js). -/
structure PostDoc where
  type : String
  category : String
  content : String
  mediaUrl : String
  thumbnailUrl : Option String
  authorId : String
  authorName : String
  authorRole : String
  likes : Nat
  views : Nat
  createdAt : Nat
  updatedAt : Option Nat := none
deriving Repr, DecidableEq

/-- Update payload for posts (`if (data.content)`). -/
structure PostUpdate where
  content : Option String := none
deriving Repr, DecidableEq

namespace PostService

/-- `PostService.updatePost(id, data, user)` (src/services/post.js):
throws NotFoundError / AuthorizationError, else writes content+updatedAt. -/
def updatePost (col : Collection PostDoc) (id : String) (data : PostUpdate)
    (user : ActingUser) (now : Nat) :
    Collection PostDoc × Except AppErr String :=
  match lookupDoc col id with
  | none => (col, .error (NotFoundError "Post"))
  | some doc =>
    if doc.authorId ≠ user.uid ∧ user.role ≠ "admin" then
      (col, .error (AuthorizationError
        "You do not have permission to update this post"))
    else
      (updateDoc col id (fun d =>
        { d with
          content := data.content.getD d.content
          updatedAt := some now }),
       .ok "Post updated successfully")

/-- `PostService.deletePost(id, user)` (src/services/post.js). -/
def deletePost (col : Collection PostDoc) (id : String)
    (user : ActingUser) : Collection PostDoc × Except AppErr String :=
  match lookupDoc col id with
  | none => (col, .error (NotFoundError "Post"))
  | some doc =>
    if doc.authorId ≠ user.uid ∧ user.role ≠ "admin" then
      (col, .error (AuthorizationError
        "You do not have permission to delete this post"))
    else
      (deleteDoc col id, .ok "Post deleted successfully")

/-- `PostService.likePost(id)` (src/services/post.js): a single Firestore
`update` carrying `FieldValue.increment(1)` on `likes`. -/
def likePost (col : Collection PostDoc) (id : String) :
    Collection PostDoc × Except AppErr String :=
  match lookupDoc col id with
  | none => (col, .error (DatabaseError "Failed to like post"))
  | some _ =>
    (updateDoc col id (fun d => { d with likes := d.likes + 1 }),
     .ok "Post liked successfully")

/-- `PostService.getPostById(id)` (src/services/post.js): fetches the
snapshot, then issues `update({views: FieldValue.increment(1)})`, and
builds the returned post from the snapshot taken BEFORE the increment. -/
def getPostById (col : Collection PostDoc) (id : String) :
    Collection PostDoc × Except AppErr PostDoc :=
  match lookupDoc col id with
  | none => (col, .error (NotFoundError "Post"))
  | some doc =>
    (updateDoc col id (fun d => { d with views := d.views + 1 }),
     .ok doc)

end PostService

/-- Event document as created by `EventService.createEvent` (part of the
event service): note there is NO owner/uploader field on events. -/
structure EventDoc where
  title : String
  description : String
  startDate : Nat
  endDate : Nat
  imageUrl : String
  location : String
  dailySummaries : List Nat
  createdAt : Nat
  updatedAt : Option Nat := none
deriving Repr, DecidableEq

/-- Update payload for events. -/
structure EventUpdate where
  title : Option String := none
  description : Option String := none
  startDate : Option Nat := none
  endDate : Option Nat := none
  location : Option String := none
  dailySummaries : Option (List Nat) := none
deriving Repr, DecidableEq

namespace EventService

/-- `EventService.updateEvent(id, data, file)` — signature from the
source: it takes NO acting user and performs NO ownership/admin check;
404 if missing, otherwise the update is applied unconditionally. -/
def updateEvent (col : Collection EventDoc) (id : String)
    (data : EventUpdate) (file : Option String) (now : Nat) :
    Collection EventDoc × Except AppErr String :=
  match lookupDoc col id with
  | none => (col, .error (NotFoundError "Event"))
  | some _ =>
    (updateDoc col id (fun d =>
      { d with
        title := data.title.getD d.title
        description := data.description.getD d.description
        startDate := data.startDate.getD d.startDate
        endDate := data.endDate.getD d.endDate
        location := data.location.getD d.location
        imageUrl := file.getD d.imageUrl
        dailySummaries := data.dailySummaries.getD d.dailySummaries
        updatedAt := some now }),
     .ok "Event updated successfully")

/-- `EventService.deleteEvent(id)` — no acting user, no authorization
check beyond existence. -/
def deleteEvent (col : Collection EventDoc) (id : String) :
    Collection EventDoc × Except AppErr String :=
  match lookupDoc col id with
  | none => (col, .error (NotFoundError "Event"))
  | some _ =>
    (deleteDoc col id, .ok "Event deleted successfully")

end EventService

/-- The moderator role set checked by `verifyModeratorToken`
(src/middleware/auth.middleware.js). -/
def moderatorRoles : List String := ["admin", "pasteur", "media"]

/-- `DELETE /api/events/:id` as routed (event.routes.js):
`verifyModeratorToken` then `EventController.delete`, which calls
`EventService.deleteEvent(id)` without passing the user. -/
def eventDeleteEndpoint (user : ActingUser) (col : Collection EventDoc)
    (id : String) : Collection EventDoc × Except AppErr String :=
  if moderatorRoles.contains user.role then
    EventService.deleteEvent col id
  else
    (col, .error (AuthorizationError "Moderator access required"))

/-- `PUT /api/events/:id` as routed: moderator gate, then
`EventService.updateEvent(id, req.body, req.file)` — again no user. -/
def eventUpdateEndpoint (user : ActingUser) (col : Collection EventDoc)
    (id : String) (data : EventUpdate) (file : Option String) (now : Nat) :
    Collection EventDoc × Except AppErr String :=
  if moderatorRoles.contains user.role then
    EventService.updateEvent col id data file now
  else
    (col, .error (AuthorizationError "Moderator access required"))

/-- A sample audio owned by `"owner"`. -/
def sampleAudio : AudioDoc :=
  { title := "t", description := "d", audioUrl := "u", thumbnailUrl := none,
    duration := 0, uploadedBy := "owner", uploadedByName := "O",
    category := "podcast", createdAt := 5, downloads := 0, plays := 0 }

/-- A sample event (events record no owner at all). -/
def sampleEvent : EventDoc :=
  { title := "conf", description := "d", startDate := 10, endDate := 12,
    imageUrl := "", location := "Lomé", dailySummaries := [], createdAt := 1 }

/-- A moderator (`role = "media"`) who owns nothing. -/
def mallory : ActingUser := ⟨"mallory", "media", "M"⟩

/-- C1 counterexample: the claim quantifies over Audio, Sermon, **Event**
and Post, but `EventService.updateEvent`/`deleteEvent` take no acting
user and perform no ownership/admin check (events do not even store an
owner id).  Concretely, the moderator `mallory` (role `media`, not
`admin`, owner of nothing) deletes an existing event through the routed
endpoint: the call succeeds and the resource is removed, instead of the
Authorization-denied outcome with the resource unchanged that the claim
requires. -/
theorem voiceOfFaith_C1_counterexample :
    mallory.role ≠ "admin" ∧
    eventDeleteEndpoint mallory [("e1", sampleEvent)] "e1" =
      ([], .ok "Event deleted successfully") := by
  constructor
  · decide
  · rfl

/-- C1 (amended): for content resources of the types Audio, Sermon and
Post, update and delete succeed only when the acting user's uid equals
the resource's owner id (`uploadedBy`/`authorId`) or the acting user's
role is `'admin'`; any other acting user — including a moderator
(pasteur/media) who does not own the resource — receives an
Authorization-denied result (status 403, `'Forbidden'` for audios and
sermons, an `AuthorizationError` for posts) and the collection is left
unchanged.  Events are excluded: their update/delete take no acting user
and apply no per-resource authorization. -/
theorem voiceOfFaith_C1 (user : ActingUser) (hadm : user.role ≠ "admin") :
    (∀ (col : Collection AudioDoc) (id : String) (a : AudioDoc)
        (data : AudioUpdate) (now : Nat),
      lookupDoc col id = some a → a.uploadedBy ≠ user.uid →
        AudioService.updateAudio col id data user now =
          (col, .err 403 "Forbidden") ∧
        AudioService.deleteAudio col id user = (col, .err 403 "Forbidden")) ∧
    (∀ (col : Collection SermonDoc) (id : String) (s : SermonDoc)
        (data : SermonUpdate) (now : Nat),
      lookupDoc col id = some s → s.uploadedBy ≠ user.uid →
        SermonService.updateSermon col id data user now =
          (col, .err 403 "Forbidden") ∧
        SermonService.deleteSermon col id user = (col, .err 403 "Forbidden")) ∧
    (∀ (col : Collection PostDoc) (id : String) (p : PostDoc)
        (data : PostUpdate) (now : Nat),
      lookupDoc col id = some p → p.authorId ≠ user.uid →
        PostService.updatePost col id data user now =
          (col, .error (AuthorizationError
            "You do not have permission to update this post")) ∧
        PostService.deletePost col id user =
          (col, .error (AuthorizationError
            "You do not have permission to delete this post"))) := by
  refine ⟨?_, ?_, ?_⟩
  · intro col id a data now hfind hown
    constructor
    · unfold AudioService.updateAudio
      rw [hfind]
      simp [hown, hadm]
    · unfold AudioService.deleteAudio
      rw [hfind]
      simp [hown, hadm]
  · intro col id s data now hfind hown
    constructor
    · unfold SermonService.updateSermon
      rw [hfind]
      simp [hown, hadm]
    · unfold SermonService.deleteSermon
      rw [hfind]
      simp [hown, hadm]
  · intro col id p data now hfind hown
    constructor
    · unfold PostService.updatePost
      rw [hfind]
      simp [hown, hadm]
    · unfold PostService.deletePost
      rw [hfind]
      simp [hown, hadm]

/-- C1 witness: the amended theorem applied to the moderator `mallory`
and a one-audio store owned by `"owner"`. -/
theorem voiceOfFaith_C1_witness :
    AudioService.updateAudio [("a1", sampleAudio)] "a1" {} mallory 9 =
      ([("a1", sampleAudio)], .err 403 "Forbidden") :=
  ((voiceOfFaith_C1 mallory (by decide)).1 [("a1", sampleAudio)] "a1"
    sampleAudio {} 9 (by decide) (by decide)).1

/-- A registered Express handler for `POST /api/posts/:id/like`. -/
def LikeHandler : Type :=
  Collection PostDoc → String → Collection PostDoc × Except AppErr String

/-- First registration in src/routes/post.js:
`router.post('/:id/like', postValidators.like, PostController.like)` —
the controller calls `postService.likePost(id)` (atomic increment). -/
def likeHandlerViaService : LikeHandler :=
  fun col id => PostService.likePost col id

/-- Second registration in src/routes/post.js: the inline handler that
reads the document, then writes `likes: <snapshot>.likes + 1` — a
read-then-write, not an atomic increment. -/
def likeHandlerInline : LikeHandler :=
  fun col id =>
    match lookupDoc col id with
    | none => (col, .error ⟨500, "INTERNAL_ERROR", "Failed to like post"⟩)
    | some doc =>
      (updateDoc col id (fun d => { d with likes := doc.likes + 1 }),
       .ok "Post liked successfully")

/-- Express dispatch: layers are tried in registration order and the
first matching route handles the request (handlers here always respond
and never call `next()`), so only the head layer is ever executed. -/
def expressDispatch (layers : List LikeHandler) : LikeHandler :=
  layers.headD (fun col _ => (col, .error ⟨404, "NOT_FOUND", "Not Found"⟩))

/-- The two layers registered for `POST /:id/like`, in file order. -/
def postLikeLayers : List LikeHandler :=
  [likeHandlerViaService, likeHandlerInline]

/-- The effective `POST /api/posts/:id/like` endpoint. -/
def postLikeEndpoint : LikeHandler := expressDispatch postLikeLayers

lemma lookupDoc_cons {α : Type} (kv : String × α) (tl : Collection α)
    (id : String) :
    lookupDoc (kv :: tl) id =
      if kv.1 == id then some kv.2 else lookupDoc tl id := by
  simp only [lookupDoc, List.find?_cons]
  cases hbeq : (kv.1 == id) <;> simp [hbeq]

lemma updateDoc_cons {α : Type} (kv : String × α) (tl : Collection α)
    (id : String) (f : α → α) :
    updateDoc (kv :: tl) id f =
      (if kv.1 == id then (kv.1, f kv.2) else kv) :: updateDoc tl id f := by
  unfold updateDoc
  rw [List.map_cons]

lemma lookupDoc_updateDoc_self {α : Type} (col : Collection α) (id : String)
    (f : α → α) :
    lookupDoc (updateDoc col id f) id = (lookupDoc col id).map f := by
  induction col with
  | nil => rfl
  | cons kv tl ih =>
    by_cases h : kv.1 = id
    · simp [updateDoc_cons, lookupDoc_cons, h]
    · simp [updateDoc_cons, lookupDoc_cons, h, ih]

lemma lookupDoc_updateDoc_ne {α : Type} (col : Collection α)
    (id id' : String) (f : α → α) (h : id' ≠ id) :
    lookupDoc (updateDoc col id f) id' = lookupDoc col id' := by
  induction col with
  | nil => rfl
  | cons kv tl ih =>
    have h3 : id ≠ id' := fun hc => h hc.symm
    by_cases h1 : kv.1 = id
    · have h2 : kv.1 ≠ id' := fun hc => h3 (h1 ▸ hc)
      simp [updateDoc_cons, lookupDoc_cons, h1, h2, h3, ih]
    · by_cases h2 : kv.1 = id'
      · simp [updateDoc_cons, lookupDoc_cons, h1, h2, h, h3]
      · simp [updateDoc_cons, lookupDoc_cons, h1, h2, ih]

lemma incrementPlays_lookup (col : Collection AudioDoc) (id : String)
    (a : AudioDoc) (h : lookupDoc col id = some a) :
    lookupDoc (AudioService.incrementPlays col id).1 id =
      some { a with plays := a.plays + 1 } := by
  unfold AudioService.incrementPlays
  rw [h]
  simp [lookupDoc_updateDoc_self, h]

lemma incrementDownloads_lookup (col : Collection AudioDoc) (id : String)
    (a : AudioDoc) (h : lookupDoc col id = some a) :
    lookupDoc (AudioService.incrementDownloads col id).1 id =
      some { a with downloads := a.downloads + 1 } := by
  unfold AudioService.incrementDownloads
  rw [h]
  simp [lookupDoc_updateDoc_self, h]

lemma likePost_lookup (col : Collection PostDoc) (id : String)
    (p : PostDoc) (h : lookupDoc col id = some p) :
    lookupDoc (PostService.likePost col id).1 id =
      some { p with likes := p.likes + 1 } := by
  unfold PostService.likePost
  rw [h]
  simp [lookupDoc_updateDoc_self, h]

lemma getPostById_lookup (col : Collection PostDoc) (id : String)
    (p : PostDoc) (h : lookupDoc col id = some p) :
    lookupDoc (PostService.getPostById col id).1 id =
      some { p with views := p.views + 1 } := by
  unfold PostService.getPostById
  rw [h]
  simp [lookupDoc_updateDoc_self, h]

/-- C2: the document store's counter updates are atomic single-document
increments, so any N concurrent increment calls — which, each call being
a single atomic read-modify-write at the store, interleave as some
sequential order of the N calls — leave the counter increased by exactly
N.  Conjuncts: (1) the `POST /:id/like` endpoint dispatches (Express:
first matching registered route wins, and the first handler always
responds) to `PostService.likePost`, the atomic `FieldValue.increment`
handler, not to the shadowed inline read-then-write registration;
(2)–(5) iterating each of the four counter operations (audio plays,
audio downloads, post likes via the dispatched endpoint, post views via
`getPostById`) N times on an existing document yields exactly
counter + N. -/
theorem voiceOfFaith_C2 :
    (postLikeEndpoint = likeHandlerViaService ∧
      ∀ (col : Collection PostDoc) (id : String),
        postLikeEndpoint col id = PostService.likePost col id) ∧
    (∀ (col : Collection AudioDoc) (id : String) (a : AudioDoc) (n : Nat),
      lookupDoc col id = some a →
        lookupDoc ((fun c => (AudioService.incrementPlays c id).1)^[n] col)
            id = some { a with plays := a.plays + n }) ∧
    (∀ (col : Collection AudioDoc) (id : String) (a : AudioDoc) (n : Nat),
      lookupDoc col id = some a →
        lookupDoc ((fun c => (AudioService.incrementDownloads c id).1)^[n]
            col) id = some { a with downloads := a.downloads + n }) ∧
    (∀ (col : Collection PostDoc) (id : String) (p : PostDoc) (n : Nat),
      lookupDoc col id = some p →
        lookupDoc ((fun c => (postLikeEndpoint c id).1)^[n] col) id =
          some { p with likes := p.likes + n }) ∧
    (∀ (col : Collection PostDoc) (id : String) (p : PostDoc) (n : Nat),
      lookupDoc col id = some p →
        lookupDoc ((fun c => (PostService.getPostById c id).1)^[n] col) id =
          some { p with views := p.views + n }) := by
  refine ⟨⟨rfl, fun col id => rfl⟩, ?_, ?_, ?_, ?_⟩
  · intro col id a n h
    induction n with
    | zero => simpa using h
    | succ n ih =>
      rw [Function.iterate_succ_apply']
      exact incrementPlays_lookup _ _ _ ih
  · intro col id a n h
    induction n with
    | zero => simpa using h
    | succ n ih =>
      rw [Function.iterate_succ_apply']
      exact incrementDownloads_lookup _ _ _ ih
  · intro col id p n h
    induction n with
    | zero => simpa using h
    | succ n ih =>
      rw [Function.iterate_succ_apply']
      exact likePost_lookup _ _ _ ih
  · intro col id p n h
    induction n with
    | zero => simpa using h
    | succ n ih =>
      rw [Function.iterate_succ_apply']
      exact getPostById_lookup _ _ _ ih

/-- C2 witness: three iterated play-increments on a one-audio store leave
`plays = 3`. -/
theorem voiceOfFaith_C2_witness :
    lookupDoc ((fun c => (AudioService.incrementPlays c "a1").1)^[3]
        [("a1", sampleAudio)]) "a1" =
      some { sampleAudio with plays := 3 } :=
  voiceOfFaith_C2.2.1 [("a1", sampleAudio)] "a1" sampleAudio 3 (by decide)

/-- Identity-provider account (Firebase Auth user record). -/
structure AuthUser where
  email : String
  password : String
  displayName : String
  emailVerified : Bool
deriving Repr, DecidableEq

/-- Profile document in the `users` collection, as written by the invite
handlers. -/
structure UserDoc where
  email : String
  displayName : String
  role : String
  photoUrl : Option String
  fcmToken : Option String
  createdAt : Nat
  needsPasswordReset : Bool
  inviteToken : Option String
  invitedBy : String
  invitedAt : Nat
  inviteResendAt : Option Nat := none
  passwordResetAt : Option Nat := none
  updatedAt : Option Nat := none
deriving Repr, DecidableEq

/-- An invitation email handed to the mail relay. -/
structure EmailMsg where
  toEmail : String
  displayName : String
  inviteToken : String
  role : String
deriving Repr, DecidableEq

/-- Combined external state touched by the identity flows: identity
provider accounts (uid ↦ record), the `users` collection, and the
outbox of the mail relay. -/
structure SysState where
  authUsers : Collection AuthUser
  users : Collection UserDoc
  sentEmails : List EmailMsg
deriving Repr, DecidableEq

/-- `auth.getUserByEmail(email)` — the identity provider's email lookup. -/
def getUserByEmail (accounts : Collection AuthUser) (email : String) :
    Option (String × AuthUser) :=
  List.find? (fun kv => kv.2.email == email) accounts

/-- A plain HTTP response (status + the salient body string). -/
structure HttpResponse where
  status : Nat
  body : String
deriving Repr, DecidableEq

/-- `POST /api/admin/users/invite` handler body
(src/routes/user.routes.js): if `getUserByEmail` finds an account the
handler returns 400 `'User with this email already exists'` before any
write; otherwise it creates the identity, writes the profile (with
`needsPasswordReset: true` and the fresh `inviteToken`) and sends the
invitation email.  The generated uid, temp password and token are
explicit parameters. -/
def routeInvite (st : SysState) (email role displayName : String)
    (invitedBy : String) (newUid tempPassword inviteToken : String)
    (now : Nat) : SysState × HttpResponse :=
  match getUserByEmail st.authUsers email with
  | some _ => (st, ⟨400, "User with this email already exists"⟩)
  | none =>
    ({ authUsers :=
         st.authUsers ++ [(newUid, ⟨email, tempPassword, displayName, false⟩)],
       users := st.users ++ [(newUid,
         { email := email, displayName := displayName, role := role,
           photoUrl := none, fcmToken := none, createdAt := now,
           needsPasswordReset := true, inviteToken := some inviteToken,
           invitedBy := invitedBy, invitedAt := now })],
       sentEmails := st.sentEmails ++ [⟨email, displayName, inviteToken, role⟩] },
     ⟨201, "User invited successfully"⟩)

namespace UserService

/-- `UserService.inviteUser(data, invitedBy)` (src/services/user.js):
same flow at the service layer, but the duplicate email raises
`ConflictError('User with this email already exists')` (statusCode
409). -/
def inviteUser (st : SysState) (email role displayName : String)
    (invitedByUid : String) (newUid tempPassword inviteToken : String)
    (now : Nat) : SysState × Except AppErr String :=
  match getUserByEmail st.authUsers email with
  | some _ =>
    (st, .error (ConflictError "User with this email already exists"))
  | none =>
    ({ authUsers :=
         st.authUsers ++ [(newUid, ⟨email, tempPassword, displayName, false⟩)],
       users := st.users ++ [(newUid,
         { email := email, displayName := displayName, role := role,
           photoUrl := none, fcmToken := none, createdAt := now,
           needsPasswordReset := true, inviteToken := some inviteToken,
           invitedBy := invitedByUid, invitedAt := now })],
       sentEmails := st.sentEmails ++ [⟨email, displayName, inviteToken, role⟩] },
     .ok "User invited successfully")

/-- `UserService.updateUserRole(id, role)` (src/services/user.js):
Firestore `update` of `{role, updatedAt: new Date()}`; an update on a
missing document rejects and is rewrapped as `DatabaseError`. -/
def updateUserRole (col : Collection UserDoc) (id role : String)
    (now : Nat) : Collection UserDoc × Except AppErr String :=
  match lookupDoc col id with
  | none =>
    (col, .error (DatabaseError "Failed to update user role: not found"))
  | some _ =>
    (updateDoc col id (fun u => { u with role := role, updatedAt := some now }),
     .ok "User role updated successfully")

/-- `UserService.resendInvitation(id)` (src/services/user.js): 404 if
the profile is missing; otherwise overwrites `inviteToken` with a fresh
uuid (explicit parameter `newToken`) and re-sends the invitation email
carrying the new token. -/
def resendInvitation (st : SysState) (id : String) (newToken : String)
    (now : Nat) : SysState × Except AppErr String :=
  match lookupDoc st.users id with
  | none => (st, .error (NotFoundError "User"))
  | some u =>
    ({ st with
       users := updateDoc st.users id (fun v =>
         { v with inviteToken := some newToken, inviteResendAt := some now }),
       sentEmails := st.sentEmails ++ [⟨u.email, u.displayName, newToken, u.role⟩] },
     .ok "Invitation resent successfully")

end UserService

/-- The `users.where('inviteToken','==',token)
.where('needsPasswordReset','==',true).limit(1)` query of the
reset-password handler: first matching profile, if any. -/
def findResetCandidate (users : Collection UserDoc) (token : String) :
    Option (String × UserDoc) :=
  List.find?
    (fun kv => kv.2.inviteToken == some token && kv.2.needsPasswordReset)
    users

/-- `POST /api/auth/reset-password` handler (src/routes/auth.routes.js):
validators (`token` non-empty, `newPassword` length ≥ 6), then the
token+flag query; empty result → 404 `'Invalid or expired token'`;
otherwise `auth.updateUser(uid, {password})` (rejects if the identity is
gone → 500 before any profile write), then the profile update clearing
the token and flag. -/
def resetPassword (st : SysState) (token newPassword : String) (now : Nat) :
    SysState × HttpResponse :=
  if token.isEmpty then (st, ⟨400, "Validation failed"⟩)
  else if newPassword.length < 6 then (st, ⟨400, "Validation failed"⟩)
  else
    match findResetCandidate st.users token with
    | none => (st, ⟨404, "Invalid or expired token"⟩)
    | some (uid, _) =>
      match lookupDoc st.authUsers uid with
      | none => (st, ⟨500, "Failed to reset password"⟩)
      | some _ =>
        ({ st with
           authUsers := updateDoc st.authUsers uid (fun au =>
             { au with password := newPassword }),
           users := updateDoc st.users uid (fun u =>
             { u with needsPasswordReset := false, inviteToken := none,
                      passwordResetAt := some now }) },
         ⟨200, "Password reset successfully"⟩)

lemma getUserByEmail_append (accounts : Collection AuthUser)
    (email uid : String) (au : AuthUser) :
    getUserByEmail (accounts ++ [(uid, au)]) email =
      (getUserByEmail accounts email).or
        (if au.email == email then some (uid, au) else none) := by
  unfold getUserByEmail
  rw [List.find?_append]
  congr 1
  cases h : (au.email == email) <;> simp [List.find?, h]

/-- C3: invoking invite when an identity for the email already exists
fails with a Conflict outcome and performs no write at all — the route
handler (src/routes/user.routes.js) answers 400
`'User with this email already exists'`, the service layer
(`UserService.inviteUser`) raises `ConflictError` with the same message
— and in particular, after a successful invite, repeating the call for
the same email hits the existing identity and returns the 400 Conflict
response with no new identity, profile, or email. -/
theorem voiceOfFaith_C3 :
    (∀ (st : SysState) (email role dn inviter uid pw tok : String)
        (now : Nat),
      (getUserByEmail st.authUsers email).isSome →
        routeInvite st email role dn inviter uid pw tok now =
          (st, ⟨400, "User with this email already exists"⟩) ∧
        UserService.inviteUser st email role dn inviter uid pw tok now =
          (st, .error (ConflictError "User with this email already exists"))) ∧
    (∀ (st : SysState) (email role dn inviter uid pw tok : String)
        (now : Nat) (role2 dn2 inviter2 uid2 pw2 tok2 : String) (now2 : Nat),
      getUserByEmail st.authUsers email = none →
        (routeInvite st email role dn inviter uid pw tok now).2 =
          ⟨201, "User invited successfully"⟩ ∧
        routeInvite (routeInvite st email role dn inviter uid pw tok now).1
            email role2 dn2 inviter2 uid2 pw2 tok2 now2 =
          ((routeInvite st email role dn inviter uid pw tok now).1,
           ⟨400, "User with this email already exists"⟩)) := by
  constructor
  · intro st email role dn inviter uid pw tok now hsome
    cases hm : getUserByEmail st.authUsers email with
    | none => rw [hm] at hsome; exact absurd hsome (by simp)
    | some u =>
      constructor
      · unfold routeInvite
        rw [hm]
      · unfold UserService.inviteUser
        rw [hm]
  · intro st email role dn inviter uid pw tok now role2 dn2 inviter2 uid2
      pw2 tok2 now2 h
    have hst : routeInvite st email role dn inviter uid pw tok now =
        ({ authUsers := st.authUsers ++ [(uid, ⟨email, pw, dn, false⟩)],
           users := st.users ++ [(uid,
             { email := email, displayName := dn, role := role,
               photoUrl := none, fcmToken := none, createdAt := now,
               needsPasswordReset := true, inviteToken := some tok,
               invitedBy := inviter, invitedAt := now })],
           sentEmails := st.sentEmails ++ [⟨email, dn, tok, role⟩] },
         ⟨201, "User invited successfully"⟩) := by
      unfold routeInvite
      rw [h]
    rw [hst]
    refine ⟨rfl, ?_⟩
    unfold routeInvite
    rw [getUserByEmail_append, h]
    simp

/-- C3 witness: first invite of `a@b.com` on an empty system succeeds
with 201, and repeating it returns the 400 Conflict with the store
untouched. -/
theorem voiceOfFaith_C3_witness :
    (routeInvite ⟨[], [], []⟩ "a@b.com" "pasteur" "A B" "root" "u1" "p1"
        "t1" 0).2 = ⟨201, "User invited successfully"⟩ ∧
    routeInvite (routeInvite ⟨[], [], []⟩ "a@b.com" "pasteur" "A B" "root"
          "u1" "p1" "t1" 0).1 "a@b.com" "pasteur" "A B" "root" "u2" "p2"
        "t2" 1 =
      ((routeInvite ⟨[], [], []⟩ "a@b.com" "pasteur" "A B" "root" "u1" "p1"
          "t1" 0).1,
       ⟨400, "User with this email already exists"⟩) :=
  voiceOfFaith_C3.2 ⟨[], [], []⟩ "a@b.com" "pasteur" "A B" "root" "u1"
    "p1" "t1" 0 "pasteur" "A B" "root" "u2" "p2" "t2" 1 rfl

/-- The reset-password query matches nothing: no stored profile carries
this invite token with the `needsPasswordReset` flag still set. -/
def noResetMatch (users : Collection UserDoc) (token : String) : Prop :=
  ∀ kv ∈ users, ¬(kv.2.inviteToken = some token ∧
    kv.2.needsPasswordReset = true)

lemma findResetCandidate_eq_none_iff (users : Collection UserDoc)
    (token : String) :
    findResetCandidate users token = none ↔ noResetMatch users token := by
  unfold findResetCandidate noResetMatch
  rw [List.find?_eq_none]
  constructor
  · intro h kv hmem hc
    exact h kv hmem (by simp [hc.1, hc.2])
  · intro h kv hmem hc
    simp only [Bool.and_eq_true, beq_iff_eq] at hc
    exact h kv hmem ⟨hc.1, by simpa using hc.2⟩

/-- C4: with inputs that pass the route validators, `resetPassword`
returns 404 NotFound exactly when no profile carries the given
`inviteToken` with `needsPasswordReset = true` — leaving the whole
state untouched in that case — and when the query matches a profile
(first match, `limit(1)`) whose identity still exists, it rewrites that
identity's password, sets the profile's `needsPasswordReset` to false
and `inviteToken` to null, and touches no other profile or identity. -/
theorem voiceOfFaith_C4 (st : SysState) (token newPassword : String)
    (now : Nat) (htok : token.isEmpty = false)
    (hpw : ¬ newPassword.length < 6) :
    (((resetPassword st token newPassword now).2.status = 404) ↔
      noResetMatch st.users token) ∧
    (noResetMatch st.users token →
      resetPassword st token newPassword now =
        (st, ⟨404, "Invalid or expired token"⟩)) ∧
    (∀ (uid : String) (u : UserDoc) (au : AuthUser),
      findResetCandidate st.users token = some (uid, u) →
      lookupDoc st.authUsers uid = some au →
      (resetPassword st token newPassword now).2 =
        ⟨200, "Password reset successfully"⟩ ∧
      lookupDoc (resetPassword st token newPassword now).1.users uid =
        (lookupDoc st.users uid).map (fun v =>
          { v with needsPasswordReset := false, inviteToken := none,
                   passwordResetAt := some now }) ∧
      lookupDoc (resetPassword st token newPassword now).1.authUsers uid =
        some { au with password := newPassword } ∧
      (∀ uid', uid' ≠ uid →
        lookupDoc (resetPassword st token newPassword now).1.users uid' =
          lookupDoc st.users uid' ∧
        lookupDoc (resetPassword st token newPassword now).1.authUsers
            uid' = lookupDoc st.authUsers uid')) := by
  refine ⟨?_, ?_, ?_⟩
  · cases hf : findResetCandidate st.users token with
    | none =>
      simp only [resetPassword, htok, hpw, if_false, if_neg hpw, hf]
      simpa using (findResetCandidate_eq_none_iff st.users token).mp hf
    | some c =>
      obtain ⟨uid, u⟩ := c
      have hne : ¬ noResetMatch st.users token := by
        intro hnm
        rw [← findResetCandidate_eq_none_iff] at hnm
        rw [hf] at hnm
        exact Option.noConfusion hnm
      simp only [resetPassword, htok, hpw, if_false, if_neg hpw, hf]
      cases ha : lookupDoc st.authUsers uid <;> simp [hne]
  · intro hnm
    rw [← findResetCandidate_eq_none_iff] at hnm
    simp only [resetPassword, htok, hpw, if_false, if_neg hpw, hnm]
    simp
  · intro uid u au hf hau
    simp only [resetPassword, htok, hpw, if_false, if_neg hpw, hf, hau]
    refine ⟨rfl, ?_, ?_, ?_⟩
    · simp [lookupDoc_updateDoc_self]
    · simp [lookupDoc_updateDoc_self, hau]
    · intro uid' hne
      constructor
      · simp [lookupDoc_updateDoc_ne _ _ _ _ hne]
      · simp [lookupDoc_updateDoc_ne _ _ _ _ hne]

/-- C4 witness: a one-profile, one-identity state where the token
matches; the reset succeeds and clears the token and flag. -/
theorem voiceOfFaith_C4_witness :
    (resetPassword
        ⟨[("u1", ⟨"a@b.com", "old", "A B", false⟩)],
         [("u1", { email := "a@b.com", displayName := "A B",
                   role := "pasteur", photoUrl := none, fcmToken := none,
                   createdAt := 0, needsPasswordReset := true,
                   inviteToken := some "tok1", invitedBy := "root",
                   invitedAt := 0 })], []⟩
        "tok1" "secret7" 5).2 = ⟨200, "Password reset successfully"⟩ :=
  ((voiceOfFaith_C4
      ⟨[("u1", ⟨"a@b.com", "old", "A B", false⟩)],
       [("u1", { email := "a@b.com", displayName := "A B",
                 role := "pasteur", photoUrl := none, fcmToken := none,
                 createdAt := 0, needsPasswordReset := true,
                 inviteToken := some "tok1", invitedBy := "root",
                 invitedAt := 0 })], []⟩
      "tok1" "secret7" 5 (by decide) (by decide)).2.2 "u1"
    { email := "a@b.com", displayName := "A B", role := "pasteur",
      photoUrl := none, fcmToken := none, createdAt := 0,
      needsPasswordReset := true, inviteToken := some "tok1",
      invitedBy := "root", invitedAt := 0 }
    ⟨"a@b.com", "old", "A B", false⟩ (by decide) (by decide)).1

/-- The profile rewrite performed by `resendInvitation`. -/
def resendRewrite (t' : String) (now : Nat) : UserDoc → UserDoc :=
  fun v => { v with inviteToken := some t', inviteResendAt := some now }

lemma noResetMatch_after_resend (users : Collection UserDoc)
    (id t t' : String) (now : Nat) (htne : t' ≠ t)
    (huniq : ∀ kv ∈ users, kv.1 ≠ id → kv.2.inviteToken ≠ some t) :
    noResetMatch (updateDoc users id (resendRewrite t' now)) t := by
  intro kv hmem hc
  unfold updateDoc at hmem
  obtain ⟨kv₀, hmem₀, hkv⟩ := List.mem_map.mp hmem
  by_cases h : kv₀.1 = id
  · have : kv.2.inviteToken = some t' := by
      rw [← hkv]
      simp [h, resendRewrite]
    rw [hc.1] at this
    exact htne (Option.some.inj this).symm
  · have : kv = kv₀ := by
      rw [← hkv]
      simp [h]
    exact huniq kv₀ hmem₀ (this ▸ h) (this ▸ hc.1)

lemma findResetCandidate_after_resend (users : Collection UserDoc)
    (id t' : String) (now : Nat) (u : UserDoc)
    (hu : lookupDoc users id = some u)
    (hflag : u.needsPasswordReset = true)
    (hfresh : ∀ kv ∈ users, kv.2.inviteToken ≠ some t') :
    findResetCandidate (updateDoc users id (resendRewrite t' now)) t' =
      some (id, resendRewrite t' now u) := by
  induction users with
  | nil => exact Option.noConfusion hu
  | cons kv tl ih =>
    rw [lookupDoc_cons] at hu
    by_cases h : kv.1 = id
    · rw [if_pos (by simpa using h)] at hu
      have hu2 : kv.2 = u := by injection hu
      subst hu2
      rw [updateDoc_cons]
      unfold findResetCandidate
      rw [List.find?_cons]
      simp only [if_pos (show (kv.1 == id) = true by simpa using h)]
      have : ((kv.1, resendRewrite t' now kv.2).2.inviteToken ==
          some t' && (kv.1, resendRewrite t' now kv.2).2.needsPasswordReset)
          = true := by
        simp [resendRewrite, hflag]
      rw [this]
      rw [h]
    · rw [if_neg (by simpa using h)] at hu
      have hfr := hfresh kv (by simp)
      rw [updateDoc_cons]
      unfold findResetCandidate
      rw [List.find?_cons]
      simp only [if_neg (show ¬ (kv.1 == id) = true by simpa using h)]
      have : (kv.2.inviteToken == some t' && kv.2.needsPasswordReset)
          = false := by
        simp [hfr]
      rw [this]
      exact ih hu (fun kv' hm => hfresh kv' (by simp [hm]))

/-- C5: for an invited user (`needsPasswordReset = true`, stored token
`t`), a successful `resendInvitation` overwrites the stored
`inviteToken` with the freshly generated value `t'`; afterwards
`resetPassword` with the previous token `t` returns 404 NotFound and
changes nothing (the old value is invalidated solely because the lookup
is by current-token equality), while `resetPassword` with the newly
stored token `t'` succeeds.  Freshness/uniqueness of the uuid tokens are
explicit hypotheses. -/
theorem voiceOfFaith_C5 (st : SysState) (id t t' pw : String)
    (now now2 now3 : Nat) (u : UserDoc) (au : AuthUser)
    (hu : lookupDoc st.users id = some u)
    (hflag : u.needsPasswordReset = true)
    (htok : u.inviteToken = some t)
    (htne : t' ≠ t)
    (huniq : ∀ kv ∈ st.users, kv.1 ≠ id → kv.2.inviteToken ≠ some t)
    (hfresh : ∀ kv ∈ st.users, kv.2.inviteToken ≠ some t')
    (hau : lookupDoc st.authUsers id = some au)
    (htv : t.isEmpty = false) (htv' : t'.isEmpty = false)
    (hpw : ¬ pw.length < 6) :
    (UserService.resendInvitation st id t' now).2 =
      .ok "Invitation resent successfully" ∧
    lookupDoc (UserService.resendInvitation st id t' now).1.users id =
      some (resendRewrite t' now u) ∧
    resetPassword (UserService.resendInvitation st id t' now).1 t pw now2 =
      ((UserService.resendInvitation st id t' now).1,
       ⟨404, "Invalid or expired token"⟩) ∧
    (resetPassword (UserService.resendInvitation st id t' now).1 t' pw
        now3).2 = ⟨200, "Password reset successfully"⟩ := by
  have hres : UserService.resendInvitation st id t' now =
      ({ st with
         users := updateDoc st.users id (resendRewrite t' now),
         sentEmails :=
           st.sentEmails ++ [⟨u.email, u.displayName, t', u.role⟩] },
       .ok "Invitation resent successfully") := by
    unfold UserService.resendInvitation
    rw [hu]
    rfl
  refine ⟨by rw [hres], ?_, ?_, ?_⟩
  · rw [hres]
    simp only [lookupDoc_updateDoc_self, hu]
    rfl
  · rw [hres]
    have hnone : findResetCandidate
        (updateDoc st.users id (resendRewrite t' now)) t = none :=
      (findResetCandidate_eq_none_iff _ _).mpr
        (noResetMatch_after_resend st.users id t t' now htne huniq)
    unfold resetPassword
    simp only [htv, hpw, if_false, if_neg hpw, hnone]
    simp
  · rw [hres]
    have hfind : findResetCandidate
        (updateDoc st.users id (resendRewrite t' now)) t' =
          some (id, resendRewrite t' now u) :=
      findResetCandidate_after_resend st.users id t' now u hu hflag hfresh
    unfold resetPassword
    simp only [htv', hpw, if_false, if_neg hpw, hfind, hau]
    simp

/-- C5 witness: one invited profile with token `"old"`; resending with
fresh token `"new"` invalidates `"old"` and `"new"` resets
successfully. -/
theorem voiceOfFaith_C5_witness :
    resetPassword
        (UserService.resendInvitation
          ⟨[("u1", ⟨"a@b.com", "pw0", "A B", false⟩)],
           [("u1", { email := "a@b.com", displayName := "A B",
                     role := "pasteur", photoUrl := none, fcmToken := none,
                     createdAt := 0, needsPasswordReset := true,
                     inviteToken := some "old", invitedBy := "root",
                     invitedAt := 0 })], []⟩ "u1" "new" 3).1
        "old" "secret7" 4 =
      ((UserService.resendInvitation
          ⟨[("u1", ⟨"a@b.com", "pw0", "A B", false⟩)],
           [("u1", { email := "a@b.com", displayName := "A B",
                     role := "pasteur", photoUrl := none, fcmToken := none,
                     createdAt := 0, needsPasswordReset := true,
                     inviteToken := some "old", invitedBy := "root",
                     invitedAt := 0 })], []⟩ "u1" "new" 3).1,
       ⟨404, "Invalid or expired token"⟩) :=
  (voiceOfFaith_C5
    ⟨[("u1", ⟨"a@b.com", "pw0", "A B", false⟩)],
     [("u1", { email := "a@b.com", displayName := "A B",
               role := "pasteur", photoUrl := none, fcmToken := none,
               createdAt := 0, needsPasswordReset := true,
               inviteToken := some "old", invitedBy := "root",
               invitedAt := 0 })], []⟩
    "u1" "old" "new" "secret7" 3 4 5
    { email := "a@b.com", displayName := "A B", role := "pasteur",
      photoUrl := none, fcmToken := none, createdAt := 0,
      needsPasswordReset := true, inviteToken := some "old",
      invitedBy := "root", invitedAt := 0 }
    ⟨"a@b.com", "pw0", "A B", false⟩
    (by decide) (by decide) (by decide) (by decide) (by decide)
    (by decide) (by decide) (by decide) (by decide) (by decide)).2.2.1

/-- `.limit(limit).offset((page-1)*limit)`: Firestore skips the offset
rows of the ordered result, then returns at most `limit` rows. -/
def paginate {α : Type} (l : List α) (lim page : Nat) : List α :=
  (l.drop ((page - 1) * lim)).take lim

/-- The `orderBy('createdAt','desc')` comparator for user rows. -/
def byCreatedAtDescU : (String × UserDoc) → (String × UserDoc) → Bool :=
  fun a b => decide (b.2.createdAt ≤ a.2.createdAt)

/-- The optional `.where('role','==',role)` filter. -/
def usersQuery (col : Collection UserDoc) (role : Option String) :
    Collection UserDoc :=
  match role with
  | some r => col.filter (fun kv => kv.2.role == r)
  | none => col

/-- Result envelope of `UserService.getAllUsers`. -/
structure UsersPage where
  users : Collection UserDoc
  page : Nat
  limit : Nat
  total : Nat
  pages : Nat
deriving Repr, DecidableEq

/-- `UserService.getAllUsers({role, limit, page})` (src/services/user.js):
optional role filter, order by `createdAt` desc,
`.limit(limit).offset((page-1)*limit)`, plus a `count()` for the
pagination envelope (`pages = Math.ceil(total/limit)`). -/
def UserService.getAllUsers (col : Collection UserDoc)
    (role : Option String) (lim page : Nat) : UsersPage :=
  let q := usersQuery col role
  let sorted := q.mergeSort byCreatedAtDescU
  { users := paginate sorted lim page, page := page, limit := lim,
    total := q.length, pages := (q.length + lim - 1) / lim }

/-- The `orderBy('createdAt','desc')` comparator for audio rows. -/
def byCreatedAtDescA : (String × AudioDoc) → (String × AudioDoc) → Bool :=
  fun a b => decide (b.2.createdAt ≤ a.2.createdAt)

/-- The optional `.where('category','==',category)` filter. -/
def audiosQuery (col : Collection AudioDoc) (category : Option String) :
    Collection AudioDoc :=
  match category with
  | some c => col.filter (fun kv => kv.2.category == c)
  | none => col

/-- Result envelope of `AudioService.getAllAudios`. -/
structure AudiosPage where
  audios : Collection AudioDoc
  page : Nat
  limit : Nat
deriving Repr, DecidableEq

/-- `AudioService.getAllAudios({limit, page, category})`
(src/services/audio.js): optional category filter, order by `createdAt`
desc, `.limit(limit).offset((page-1)*limit)`. -/
def AudioService.getAllAudios (col : Collection AudioDoc)
    (category : Option String) (lim page : Nat) : AudiosPage :=
  let q := audiosQuery col category
  let sorted := q.mergeSort byCreatedAtDescA
  { audios := paginate sorted lim page, page := page, limit := lim }

/-- C6: pagination is offset-based on both cited list endpoints — the
returned rows are exactly `take limit (drop ((page-1)*limit))` of the
ordered query result (hence at most `limit` rows) — and over a static
25-row users collection (with unique document ids) page 1 with limit 20
returns 20 rows, page 2 returns the remaining 5, and no row appears on
both pages. -/
theorem voiceOfFaith_C6 :
    (∀ (col : Collection UserDoc) (role : Option String) (lim page : Nat),
      (UserService.getAllUsers col role lim page).users =
        (((usersQuery col role).mergeSort byCreatedAtDescU).drop
          ((page - 1) * lim)).take lim ∧
      (UserService.getAllUsers col role lim page).users.length ≤ lim) ∧
    (∀ (col : Collection AudioDoc) (category : Option String)
        (lim page : Nat),
      (AudioService.getAllAudios col category lim page).audios =
        (((audiosQuery col category).mergeSort byCreatedAtDescA).drop
          ((page - 1) * lim)).take lim ∧
      (AudioService.getAllAudios col category lim page).audios.length ≤
        lim) ∧
    (∀ col : Collection UserDoc,
      col.length = 25 → (col.map (·.1)).Nodup →
        (UserService.getAllUsers col none 20 1).users.length = 20 ∧
        (UserService.getAllUsers col none 20 2).users.length = 5 ∧
        ∀ kv ∈ (UserService.getAllUsers col none 20 1).users,
          kv ∉ (UserService.getAllUsers col none 20 2).users) := by
  refine ⟨?_, ?_, ?_⟩
  · intro col role lim page
    refine ⟨rfl, ?_⟩
    simpa [UserService.getAllUsers, paginate] using
      List.length_take_le lim _
  · intro col category lim page
    refine ⟨rfl, ?_⟩
    simpa [AudioService.getAllAudios, paginate] using
      List.length_take_le lim _
  · intro col hlen hnodup
    have hperm : (col.mergeSort byCreatedAtDescU).Perm col :=
      List.mergeSort_perm col byCreatedAtDescU
    have hslen : (col.mergeSort byCreatedAtDescU).length = 25 := by
      rw [hperm.length_eq, hlen]
    have hsnodup : (col.mergeSort byCreatedAtDescU).Nodup :=
      hperm.nodup_iff.mpr (List.Nodup.of_map _ hnodup)
    refine ⟨?_, ?_, ?_⟩
    · simp [UserService.getAllUsers, usersQuery, paginate,
        List.length_take, List.length_drop, hslen]
    · simp [UserService.getAllUsers, usersQuery, paginate,
        List.length_take, List.length_drop, hslen]
    · intro kv hmem1 hmem2
      have hdisj : List.Disjoint
          ((col.mergeSort byCreatedAtDescU).take 20)
          ((col.mergeSort byCreatedAtDescU).drop 20) :=
        List.disjoint_take_drop hsnodup le_rfl
      have h1 : kv ∈ (col.mergeSort byCreatedAtDescU).take 20 := by
        simpa [UserService.getAllUsers, usersQuery, paginate] using hmem1
      have h2 : kv ∈ (col.mergeSort byCreatedAtDescU).drop 20 := by
        have := hmem2
        simp only [UserService.getAllUsers, usersQuery, paginate] at this
        exact List.take_subset _ _ this
      exact hdisj h1 h2

/-- A sample invited-era user row used for pagination witnesses. -/
def sampleUser (i : Nat) : UserDoc :=
  { email := toString i, displayName := "", role := "user",
    photoUrl := none, fcmToken := none, createdAt := i,
    needsPasswordReset := false, inviteToken := none, invitedBy := "",
    invitedAt := 0 }

/-- A static 25-row users collection with distinct ids. -/
def sampleUsers : Collection UserDoc :=
  (List.range 25).map (fun i => (toString i, sampleUser i))

/-- C6 witness: the 25-row scenario on a concrete collection. -/
theorem voiceOfFaith_C6_witness :
    (UserService.getAllUsers sampleUsers none 20 1).users.length = 20 ∧
    (UserService.getAllUsers sampleUsers none 20 2).users.length = 5 :=
  have h := voiceOfFaith_C6.2.2 sampleUsers (by decide) (by decide)
  ⟨h.1, h.2.1⟩

lemma updateDoc_updateDoc {α : Type} (col : Collection α) (id : String)
    (f g : α → α) :
    updateDoc (updateDoc col id f) id g = updateDoc col id (g ∘ f) := by
  unfold updateDoc
  rw [List.map_map]
  apply List.map_congr_left
  intro kv _
  by_cases h : kv.1 = id <;> simp [h]

/-- Strip the `updatedAt` audit timestamp from a profile. -/
def clearUpdatedAt (u : UserDoc) : UserDoc := { u with updatedAt := none }

/-- C7 counterexample: `updateUserRole` also writes
`updatedAt: new Date()`, so two calls made at different times (0 then 1)
end with `updatedAt = 1` while a single call at time 0 ends with
`updatedAt = 0` — the final user-profile states differ, refuting literal
idempotence. -/
theorem voiceOfFaith_C7_counterexample :
    (UserService.updateUserRole
      (UserService.updateUserRole [("u1", sampleUser 0)] "u1" "media" 0).1
      "u1" "media" 1).1 ≠
    (UserService.updateUserRole [("u1", sampleUser 0)] "u1" "media" 0).1 := by
  decide

/-- C7 (amended): role update is idempotent up to the `updatedAt` audit
timestamp — calling `updateUserRole(id, role)` twice (at times `t₁`,
`t₂`) yields exactly the state of a single call made at the second
call's time, and once the `updatedAt` field is disregarded the two-call
state coincides with the single-call state; with equal timestamps the
operation is literally idempotent. -/
theorem voiceOfFaith_C7 :
    (∀ (col : Collection UserDoc) (id role : String) (t₁ t₂ : Nat),
      UserService.updateUserRole
          (UserService.updateUserRole col id role t₁).1 id role t₂ =
        UserService.updateUserRole col id role t₂) ∧
    (∀ (col : Collection UserDoc) (id role : String) (t : Nat),
      UserService.updateUserRole
          (UserService.updateUserRole col id role t).1 id role t =
        UserService.updateUserRole col id role t) ∧
    (∀ (col : Collection UserDoc) (id role : String) (t₁ t₂ : Nat),
      (UserService.updateUserRole
          (UserService.updateUserRole col id role t₁).1 id role
          t₂).1.map (fun kv => (kv.1, clearUpdatedAt kv.2)) =
        (UserService.updateUserRole col id role t₁).1.map
          (fun kv => (kv.1, clearUpdatedAt kv.2))) := by
  have key : ∀ (col : Collection UserDoc) (id role : String) (t₁ t₂ : Nat),
      UserService.updateUserRole
          (UserService.updateUserRole col id role t₁).1 id role t₂ =
        UserService.updateUserRole col id role t₂ := by
    intro col id role t₁ t₂
    cases hu : lookupDoc col id with
    | none =>
      have h1 : UserService.updateUserRole col id role t₁ =
          (col, .error (DatabaseError
            "Failed to update user role: not found")) := by
        unfold UserService.updateUserRole
        rw [hu]
      rw [h1]
    | some u =>
      have h1 : UserService.updateUserRole col id role t₁ =
          (updateDoc col id (fun u =>
            { u with role := role, updatedAt := some t₁ }),
           .ok "User role updated successfully") := by
        unfold UserService.updateUserRole
        rw [hu]
      rw [h1]
      have h2 : lookupDoc (updateDoc col id (fun u =>
          { u with role := role, updatedAt := some t₁ })) id =
          some { u with role := role, updatedAt := some t₁ } := by
        rw [lookupDoc_updateDoc_self, hu]
        rfl
      unfold UserService.updateUserRole
      rw [h2, hu, updateDoc_updateDoc]
      rfl
  refine ⟨key, fun col id role t => key col id role t t, ?_⟩
  intro col id role t₁ t₂
  rw [key]
  cases hu : lookupDoc col id with
  | none =>
    unfold UserService.updateUserRole
    rw [hu]
  | some u =>
    unfold UserService.updateUserRole
    rw [hu]
    unfold updateDoc
    rw [List.map_map, List.map_map]
    apply List.map_congr_left
    intro kv _
    by_cases h : kv.1 = id <;> simp [h, clearUpdatedAt]

/-- The singleton `settings/app_settings` document. -/
structure SettingsDoc where
  isLive : Bool
  liveYoutubeUrl : Option String := none
  liveTitle : Option String := none
  createdAt : Option Nat := none
  updatedAt : Option Nat := none
  updatedBy : Option String := none
deriving Repr, DecidableEq

/-- A push notification handed to `sendNotificationToTopic`. -/
structure NotifMsg where
  topic : String
  title : String
  body : String
  ntype : String
  url : String
deriving Repr, DecidableEq

/-- State touched by the live service: the singleton settings document
(absent until first written) and the push gateway's outbox. -/
structure LiveState where
  settings : Option SettingsDoc
  notifications : List NotifMsg
deriving Repr, DecidableEq

/-- Body of `PUT /api/admin/live/status`; `none` models an `undefined`
field (the code guards with `!== undefined`). -/
structure LiveUpdateData where
  isLive : Bool
  liveYoutubeUrl : Option String := none
  liveTitle : Option String := none
deriving Repr, DecidableEq

namespace LiveService

/-- `LiveService.updateLiveStatus(data, user)` (src/services/live.js):
builds `updateData` (`isLive`, `updatedAt`, `updatedBy`, plus url/title
when defined), `set`s the singleton with an extra `createdAt` when it
does not exist and `update`s it otherwise, then broadcasts to the
`'all_users'` topic when (and only when) `isLive` is truthy. -/
def updateLiveStatus (st : LiveState) (data : LiveUpdateData)
    (user : ActingUser) (now : Nat) : LiveState × SvcResult :=
  let settings' :=
    match st.settings with
    | none =>
      some { isLive := data.isLive,
             liveYoutubeUrl := data.liveYoutubeUrl,
             liveTitle := data.liveTitle,
             createdAt := some now, updatedAt := some now,
             updatedBy := some user.uid }
    | some s =>
      some { s with
             isLive := data.isLive,
             liveYoutubeUrl := data.liveYoutubeUrl.or s.liveYoutubeUrl,
             liveTitle := data.liveTitle.or s.liveTitle,
             updatedAt := some now, updatedBy := some user.uid }
  let notifications' :=
    if data.isLive then
      st.notifications ++
        [⟨"all_users", "🔴 LIVE EN DIRECT !",
          data.liveTitle.getD "Rejoignez-nous maintenant", "live",
          data.liveYoutubeUrl.getD ""⟩]
    else st.notifications
  (⟨settings', notifications'⟩,
   .ok (if data.isLive then "Live started successfully"
        else "Live stopped successfully"))

end LiveService

/-- C8: `updateLiveStatus` upserts the singleton live-settings document
— creating it (with `createdAt`) when absent and updating it (keeping
`createdAt` and any field the request leaves undefined) otherwise — and
appends a broadcast notification to the `'all_users'` topic if and only
if the submitted `isLive` is true; `isLive = false` sends nothing. -/
theorem voiceOfFaith_C8 (st : LiveState) (data : LiveUpdateData)
    (user : ActingUser) (now : Nat) :
    ((LiveService.updateLiveStatus st data user now).1.settings.isSome =
      true) ∧
    (st.settings = none →
      (LiveService.updateLiveStatus st data user now).1.settings =
        some { isLive := data.isLive,
               liveYoutubeUrl := data.liveYoutubeUrl,
               liveTitle := data.liveTitle, createdAt := some now,
               updatedAt := some now, updatedBy := some user.uid }) ∧
    (∀ s, st.settings = some s →
      (LiveService.updateLiveStatus st data user now).1.settings =
        some { s with
               isLive := data.isLive,
               liveYoutubeUrl := data.liveYoutubeUrl.or s.liveYoutubeUrl,
               liveTitle := data.liveTitle.or s.liveTitle,
               updatedAt := some now, updatedBy := some user.uid }) ∧
    ((LiveService.updateLiveStatus st data user now).1.notifications =
      st.notifications ++
        (if data.isLive then
          [⟨"all_users", "🔴 LIVE EN DIRECT !",
            data.liveTitle.getD "Rejoignez-nous maintenant", "live",
            data.liveYoutubeUrl.getD ""⟩]
        else [])) ∧
    ((LiveService.updateLiveStatus st data user now).1.notifications ≠
        st.notifications ↔ data.isLive = true) := by
  refine ⟨?_, ?_, ?_, ?_, ?_⟩
  · cases hs : st.settings <;> simp [LiveService.updateLiveStatus, hs]
  · intro h
    simp [LiveService.updateLiveStatus, h]
  · intro s h
    simp [LiveService.updateLiveStatus, h]
  · cases hl : data.isLive <;>
      simp [LiveService.updateLiveStatus, hl]
  · cases hl : data.isLive <;>
      simp [LiveService.updateLiveStatus, hl]

/-- C8 witness: starting a live on an empty state creates the document
and sends exactly one broadcast. -/
theorem voiceOfFaith_C8_witness :
    (LiveService.updateLiveStatus ⟨none, []⟩
        ⟨true, some "yt", some "T"⟩ ⟨"admin1", "admin", "A"⟩ 7).1.settings =
      some { isLive := true, liveYoutubeUrl := some "yt",
             liveTitle := some "T", createdAt := some 7,
             updatedAt := some 7, updatedBy := some "admin1" } :=
  (voiceOfFaith_C8 ⟨none, []⟩ ⟨true, some "yt", some "T"⟩
    ⟨"admin1", "admin", "A"⟩ 7).2.1 rfl

/-- C9: `PostService.getPostById` on an existing post returns the
snapshot taken before the write — so the returned post carries the
pre-increment `views` value — while the stored document has `views`
incremented by exactly 1, every other field unchanged, and every other
document untouched. -/
theorem voiceOfFaith_C9 (col : Collection PostDoc) (id : String)
    (p : PostDoc) (h : lookupDoc col id = some p) :
    (PostService.getPostById col id).2 = .ok p ∧
    lookupDoc (PostService.getPostById col id).1 id =
      some { p with views := p.views + 1 } ∧
    (∀ id', id' ≠ id →
      lookupDoc (PostService.getPostById col id).1 id' =
        lookupDoc col id') := by
  refine ⟨?_, ?_, ?_⟩
  · unfold PostService.getPostById
    rw [h]
  · unfold PostService.getPostById
    rw [h]
    simp only [lookupDoc_updateDoc_self, h]
    rfl
  · intro id' hne
    unfold PostService.getPostById
    rw [h]
    simp only [lookupDoc_updateDoc_ne _ _ _ _ hne]

/-- A sample post authored by `"owner"`. -/
def samplePost : PostDoc :=
  { type := "image", category := "pensee", content := "c",
    mediaUrl := "m", thumbnailUrl := none, authorId := "owner",
    authorName := "O", authorRole := "pasteur", likes := 2, views := 40,
    createdAt := 1 }

/-- C9 witness: reading the sample post returns `views = 40` and stores
`views = 41`. -/
theorem voiceOfFaith_C9_witness :
    (PostService.getPostById [("p1", samplePost)] "p1").2 =
      .ok samplePost ∧
    lookupDoc (PostService.getPostById [("p1", samplePost)] "p1").1 "p1" =
      some { samplePost with views := samplePost.views + 1 } :=
  have h := voiceOfFaith_C9 [("p1", samplePost)] "p1" samplePost (by decide)
  ⟨h.1, h.2.1⟩

/-- A decoded Firebase ID token. -/
structure DecodedToken where
  uid : String
  email : String
deriving Repr, DecidableEq

/-- What the middleware does with the request: respond immediately with
an error, or attach `req.user` and call `next()` (the route handler). -/
inductive MiddlewareOutcome where
  | respond (status : Nat) (error : String)
  | proceed (uid : String) (email : String) (profile : UserDoc)
deriving Repr, DecidableEq

/-- `authHeader.startsWith('Bearer ')` / `authHeader.split('Bearer ')[1]`
— extract the bearer token from the Authorization header, if any
(expressed on the character list so it evaluates by `decide`). -/
def bearerToken (h : String) : Option String :=
  if h.toList.take 7 = "Bearer ".toList then some ⟨h.toList.drop 7⟩
  else none

/-- `verifyFirebaseToken` (src/middleware/auth.middleware.js): 401 when
the header is missing or not `Bearer `-prefixed; the identity provider's
`verifyIdToken` (passed as an oracle function) rejecting → 401
`'Invalid token'`; a verified uid with no document in the `users`
collection → 404 `'User not found'`; otherwise `req.user` is populated
from the decoded token plus the profile and `next()` runs. -/
def verifyFirebaseToken (authHeader : Option String)
    (verifyIdToken : String → Option DecodedToken)
    (users : Collection UserDoc) : MiddlewareOutcome :=
  match authHeader with
  | none => .respond 401 "No token provided"
  | some h =>
    match bearerToken h with
    | none => .respond 401 "No token provided"
    | some token =>
      match verifyIdToken token with
      | none => .respond 401 "Invalid token"
      | some decoded =>
        match lookupDoc users decoded.uid with
        | none => .respond 404 "User not found"
        | some profile => .proceed decoded.uid decoded.email profile

/-- C10: a request whose bearer token the identity provider verifies
successfully but whose uid has no document in the `users` collection is
answered 404 `'User not found'` — not 401 or 403 — and the route handler
(`next()`) is never invoked. -/
theorem voiceOfFaith_C10 (header : Option String) (hs : String)
    (token : String) (verifyIdToken : String → Option DecodedToken)
    (users : Collection UserDoc) (d : DecodedToken)
    (hh : header = some hs)
    (hb : bearerToken hs = some token)
    (hver : verifyIdToken token = some d)
    (hnouser : lookupDoc users d.uid = none) :
    verifyFirebaseToken header verifyIdToken users =
      .respond 404 "User not found" ∧
    ∀ uid email profile,
      verifyFirebaseToken header verifyIdToken users ≠
        .proceed uid email profile := by
  have hout : verifyFirebaseToken header verifyIdToken users =
      .respond 404 "User not found" := by
    unfold verifyFirebaseToken
    rw [hh]
    dsimp only
    rw [hb]
    dsimp only
    rw [hver]
    dsimp only
    rw [hnouser]
  exact ⟨hout, fun uid email profile hc => by
    rw [hout] at hc
    exact MiddlewareOutcome.noConfusion hc⟩

/-- C10 witness: header `"Bearer tok123"`, an oracle accepting exactly
`tok123` as uid `u9`, and a `users` collection without `u9`. -/
theorem voiceOfFaith_C10_witness :
    verifyFirebaseToken (some "Bearer tok123")
      (fun t => if t == "tok123" then some ⟨"u9", "x@y.z"⟩ else none)
      [("u1", sampleUser 1)] = .respond 404 "User not found" :=
  (voiceOfFaith_C10 (some "Bearer tok123") "Bearer tok123" "tok123"
    (fun t => if t == "tok123" then some ⟨"u9", "x@y.z"⟩ else none)
    [("u1", sampleUser 1)] ⟨"u9", "x@y.z"⟩ rfl (by decide) (by decide)
    (by decide)).1
